import Mathlib

/-!
Verification development for the TradingApp decision-and-lifecycle engine.

The TypeScript sources are shallowly embedded: prices, quantities and
confidence percentages (IEEE-754 doubles in the source) are modelled as
exact rationals, except for the options-pricing module whose transcendental
math (`Math.exp`, `Math.log`, `Math.sqrt`) is modelled over the reals.
Fallible gateway calls (Zerodha HTTP client) are modelled as `Except`-valued
inputs: each embedded operation takes the gateway's response(s) for the
calls it performs, and stateful services pass their in-memory state
explicitly.
-/

/-- Direction of an indicator opinion or a trade: the TS union 'BUY' | 'SELL'.
`none` at use sites stands for the TS `null`. -/
inductive Side
  | BUY
  | SELL
deriving DecidableEq, Repr, BEq

/-- OHLCV candle (src/packages/shared types; `timestamp` omitted — no embedded
computation reads it). -/
structure Candle where
  o : ℚ
  high : ℚ
  low : ℚ
  close : ℚ
  volume : ℚ
deriving DecidableEq, Repr

/-- Spec §3 candle invariant: `high ≥ max(open, close)`, `low ≤ min(open, close)`. -/
def candleInv (c : Candle) : Prop :=
  max c.o c.close ≤ c.high ∧ c.low ≤ min c.o c.close

instance : DecidablePred candleInv := fun c => by
  unfold candleInv
  infer_instance

/-- JS `arr.slice(-n)`: the last `n` elements (whole list when shorter). -/
def lastN {α : Type} (xs : List α) (n : ℕ) : List α :=
  xs.drop (xs.length - n)

namespace SignalDetection

/-- SignalDetectionService.calculateMA (src/unnamed/part_008 lines 104-108):
mean of the last `period` prices, `0` when the history is shorter. -/
def calculateMA (prices : List ℚ) (period : ℕ) : ℚ :=
  if prices.length < period then 0
  else (lastN prices period).sum / period

/-- SignalDetectionService.calculateEMA (part_008 lines 110-120): recursive EMA
seeded with the first element, multiplier `2/(period+1)`; `0` on empty input. -/
def calculateEMA (prices : List ℚ) (period : ℕ) : ℚ :=
  match prices with
  | [] => 0
  | p :: rest =>
    let multiplier : ℚ := 2 / (period + 1)
    rest.foldl (fun ema price => price * multiplier + ema * (1 - multiplier)) p

/-- SignalDetectionService.calculateRSI (part_008 lines 122-136): gains/losses
over all consecutive deltas, averaged by `period`; `RS := 0` when the average
loss is `0`; `RSI = 100 − 100/(1+RS)`. -/
def calculateRSI (candles : List Candle) (period : ℕ) : ℚ :=
  let closes := candles.map (·.close)
  let changes := (closes.zip closes.tail).map (fun pc => pc.2 - pc.1)
  let gains := changes.filter (fun c => decide (0 < c))
  let losses := (changes.filter (fun c => decide (c < 0))).map (fun c => |c|)
  let avgGain := gains.sum / period
  let avgLoss := losses.sum / period
  let rs := if avgLoss = 0 then 0 else avgGain / avgLoss
  100 - 100 / (1 + rs)

/-- SignalDetectionService.detectMACD (part_008 lines 52-76): MACD line is
`EMA12 − EMA26` of the closes; the "signal line" is computed by the source as
`calculateEMA([macd], 9)` — the EMA of the one-element list holding the current
MACD value — and analogously for the previous window. -/
def detectMACD (candles : List Candle) : Option Side :=
  if candles.length < 26 then none
  else
    let closes := candles.map (·.close)
    let ema12 := calculateEMA closes 12
    let ema26 := calculateEMA closes 26
    let macd := ema12 - ema26
    let prevCloses := closes.dropLast
    let prevEMA12 := calculateEMA prevCloses 12
    let prevEMA26 := calculateEMA prevCloses 26
    let prevMACD := prevEMA12 - prevEMA26
    let signal := calculateEMA [macd] 9
    let prevSignal := calculateEMA [prevMACD] 9
    if prevMACD ≤ prevSignal ∧ macd > signal then some Side.BUY
    else if prevMACD ≥ prevSignal ∧ macd < signal then some Side.SELL
    else none

end SignalDetection

namespace AIMarketAnalysis

/-- AIMarketAnalysisService.calculateRSI
(src/packages/server/src/services/ultimate-strategy.ts lines 779-791):
returns the neutral `50` on short history; `RS := 100` when the average loss
is `0`. -/
def calculateRSI (prices : List ℚ) (period : ℕ := 14) : ℚ :=
  if prices.length < period + 1 then 50
  else
    let changes := (prices.zip prices.tail).map (fun pc => pc.2 - pc.1)
    let gains := (changes.filter (fun c => decide (0 < c))).sum
    let losses := |(changes.filter (fun c => decide (c < 0))).sum|
    let avgGain := gains / period
    let avgLoss := losses / period
    let rs := if avgLoss = 0 then 100 else avgGain / avgLoss
    100 - 100 / (1 + rs)

end AIMarketAnalysis

namespace UltimateStrategy

/-- Result record of UltimateStrategy.analyzeSymbol
(src/packages/server/src/services/ultimate-strategy.ts lines 4-15).
The TS `timestamp: Date` is an abstract tick. -/
structure StrategySignal where
  symbol : String
  instrumentToken : ℕ
  signal : Option Side
  confidence : ℚ
  signalsMatched : List String
  timestamp : ℕ
  price : ℚ
  target : ℚ
  stoploss : ℚ
  riskReward : ℚ
deriving DecidableEq, Repr

/-- The record produced by UltimateStrategy.runAllSignals (ultimate-strategy.ts
lines 94-116): ten indicator opinions, in the object's insertion order.
The detectors that fill it consume gateway-fetched candles; analysis-level
theorems quantify over this record. -/
structure Signals where
  maCrossover1h : Option Side
  rsi1h : Option Side
  macd1h : Option Side
  bollingerBands1h : Option Side
  maCrossover15m : Option Side
  rsi15m : Option Side
  macd15m : Option Side
  volumeConfirmation : Option Side
  trendStrength : Option Side
  srBounce : Option Side
deriving DecidableEq, Repr

/-- The `Object.entries` view of a `Signals` record: field names paired with
values, in insertion order. -/
def Signals.entries (s : Signals) : List (String × Option Side) :=
  [("maCrossover_1h", s.maCrossover1h), ("rsi_1h", s.rsi1h),
   ("macd_1h", s.macd1h), ("bollingerBands_1h", s.bollingerBands1h),
   ("maCrossover_15m", s.maCrossover15m), ("rsi_15m", s.rsi15m),
   ("macd_15m", s.macd15m), ("volumeConfirmation", s.volumeConfirmation),
   ("trendStrength", s.trendStrength), ("srBounce", s.srBounce)]

/-- Count of `BUY` opinions among the ten entries. -/
def Signals.buyCount (s : Signals) : ℕ :=
  (s.entries.filter (fun e => e.2 == some Side.BUY)).length

/-- Count of `SELL` opinions among the ten entries. -/
def Signals.sellCount (s : Signals) : ℕ :=
  (s.entries.filter (fun e => e.2 == some Side.SELL)).length

/-- UltimateStrategy.calculateConfidence (ultimate-strategy.ts lines 121-147):
tallies BUY/SELL opinions and their field names; confidence is
`(winning count / total signals) * 100`, and `0` on a tie. -/
def calculateConfidence (s : Signals) : ℚ × List String :=
  let buySignals := s.buyCount
  let sellSignals := s.sellCount
  let matchedSignals :=
    (s.entries.filter (fun e => e.2 == some Side.BUY || e.2 == some Side.SELL)).map (·.1)
  let totalSignals := s.entries.length
  let confidence : ℚ :=
    if sellSignals < buySignals then (buySignals : ℚ) / totalSignals * 100
    else if buySignals < sellSignals then (sellSignals : ℚ) / totalSignals * 100
    else 0
  (confidence, matchedSignals)

/-- `minConfidenceThreshold` (ultimate-strategy.ts line 19). -/
def minConfidenceThreshold : ℚ := 80

/-- UltimateStrategy.determineFinalSignal (ultimate-strategy.ts lines 152-168). -/
def determineFinalSignal (s : Signals) (confidence : ℚ) : Option Side :=
  if confidence < minConfidenceThreshold then none
  else
    let buySignals := s.buyCount
    let sellSignals := s.sellCount
    if sellSignals < buySignals then some Side.BUY
    else if buySignals < sellSignals then some Side.SELL
    else none

/-- UltimateStrategy.calculateATR (ultimate-strategy.ts lines 278-295):
true ranges for candles 1..n−1, then the mean of the last `period` of them;
`0` when fewer than `period` candles. -/
def calculateATR (candles : List Candle) (period : ℕ := 14) : ℚ :=
  if candles.length < period then 0
  else
    let trList := (candles.zip candles.tail).map (fun pc =>
      max (pc.2.high - pc.2.low)
        (max |pc.2.high - pc.1.close| |pc.2.low - pc.1.close|))
    (lastN trList period).sum / period

/-- UltimateStrategy.calculateRiskManagement (ultimate-strategy.ts lines
252-273): `riskFactor = 2`; BUY gets `(price + 2·atr, price − atr)`, SELL the
mirror, and `(0, 0)` when there is no signal. -/
def calculateRiskManagement (currentPrice : ℚ) (signal : Option Side)
    (candles : List Candle) : ℚ × ℚ :=
  let atr := calculateATR candles
  let riskFactor : ℚ := 2
  match signal with
  | some Side.BUY => (currentPrice + atr * riskFactor, currentPrice - atr)
  | some Side.SELL => (currentPrice - atr * riskFactor, currentPrice + atr)
  | none => (0, 0)

/-- UltimateStrategy.calculateRiskReward (ultimate-strategy.ts lines 300-311):
`0` when the stoploss is `0` or equals the current price, else
`|target − price| / |price − stoploss|`. -/
def calculateRiskReward (currentPrice target stoploss : ℚ) : ℚ :=
  if stoploss = 0 ∨ stoploss = currentPrice then 0
  else |target - currentPrice| / |currentPrice - stoploss|

/-- Pure core of UltimateStrategy.analyzeSymbol (ultimate-strategy.ts lines
56-84), taking the gateway-dependent pieces as inputs: the ten opinions
computed by runAllSignals from the fetched 1h/15m candles, the quote's
`last_price || 0`, and the fetched 1-hour candles used for risk management. -/
def analyzeCore (symbol : String) (instrumentToken : ℕ) (signals : Signals)
    (currentPrice : ℚ) (candles1h : List Candle) (now : ℕ) : StrategySignal :=
  let cm := calculateConfidence signals
  let finalSignal := determineFinalSignal signals cm.1
  let ts := calculateRiskManagement currentPrice finalSignal candles1h
  let rr := calculateRiskReward currentPrice ts.1 ts.2
  { symbol := symbol
    instrumentToken := instrumentToken
    signal := finalSignal
    confidence := cm.1
    signalsMatched := cm.2
    timestamp := now
    price := currentPrice
    target := ts.1
    stoploss := ts.2
    riskReward := rr }

end UltimateStrategy

namespace TradingRoutes

/-- The route-level utility calculateATR (src/unnamed/part_006 lines 846-857):
no length guard; the first candle's true range is `high − low`, later ones the
usual three-way max; mean of the last `period` values. -/
def calculateATR (candles : List Candle) (period : ℕ) : ℚ :=
  let trs := candles.enum.map (fun ic =>
    if ic.1 = 0 then ic.2.high - ic.2.low
    else
      match candles[ic.1 - 1]? with
      | some prev =>
        max (ic.2.high - ic.2.low)
          (max |ic.2.high - prev.close| |ic.2.low - prev.close|)
      | none => ic.2.high - ic.2.low)
  (lastN trs period).sum / period

end TradingRoutes

namespace TradeExecutor

/-- Trade lifecycle status
(src/packages/server/src/services/automatic-trade-executor.ts line 22). -/
inductive TradeStatus
  | PENDING
  | EXECUTED
  | FILLED
  | CANCELLED
  | CLOSED
deriving DecidableEq, Repr, BEq

/-- ExecutedTrade (automatic-trade-executor.ts lines 13-28); `Date` fields are
abstract ticks, the optional fields model the TS `?` fields. -/
structure ExecutedTrade where
  id : String
  symbol : String
  type : Side
  entryPrice : ℚ
  quantity : ℚ
  target : ℚ
  stoploss : ℚ
  orderId : String
  status : TradeStatus
  confidence : ℚ
  createdAt : ℕ
  closedAt : Option ℕ
  exitPrice : Option ℚ
  pnl : Option ℚ
deriving DecidableEq, Repr

/-- AutomaticTradeConfig (automatic-trade-executor.ts lines 4-11). -/
structure Config where
  symbol : String
  instrumentToken : ℕ
  quantity : ℚ
  minConfidence : ℚ
  maxRiskPerTrade : ℚ
  maxOpenTrades : ℕ
deriving DecidableEq, Repr

/-- One entry of the gateway's getPositions() response; only the fields the
executor reads. -/
structure Position where
  instrument_token : ℕ
  quantity : ℚ
deriving DecidableEq, Repr

/-- The `activeTrades: Map<string, ExecutedTrade>` in insertion order. -/
abbrev TradeMap := List (String × ExecutedTrade)

/-- JS `Map.get`. -/
def mapGet (m : TradeMap) (k : String) : Option ExecutedTrade :=
  (m.find? (fun e => e.1 == k)).map (·.2)

/-- JS `Map.set`: update in place when the key exists (keeping its position),
else append. -/
def mapSet (m : TradeMap) (k : String) (v : ExecutedTrade) : TradeMap :=
  if m.any (fun e => e.1 == k) then
    m.map (fun e => if e.1 == k then (k, v) else e)
  else m ++ [(k, v)]

/-- JS `Map.delete`, preserving the order of the remaining entries. -/
def mapDelete (m : TradeMap) (k : String) : TradeMap :=
  m.filter (fun e => !(e.1 == k))

/-- AutomaticTradeExecutor.executeTrade (automatic-trade-executor.ts lines
86-132). `sig` is the strategy signal; `d` is the value of its non-null
`signal` field (the TS cast at the call site); `orderResp` is the gateway's
placeBracketOrder response — an error is rethrown with the map untouched,
otherwise the trade is recorded with `status := EXECUTED` and stored. -/
def executeTrade (cfg : Config) (now : ℕ) (sig : UltimateStrategy.StrategySignal)
    (d : Side) (orderResp : Except String String) (m : TradeMap) :
    TradeMap × Except String ExecutedTrade :=
  match orderResp with
  | .error e => (m, .error e)
  | .ok orderId =>
    let trade : ExecutedTrade :=
      { id := sig.symbol ++ "_" ++ toString now
        symbol := sig.symbol
        type := d
        entryPrice := sig.price
        quantity := cfg.quantity
        target := sig.target
        stoploss := sig.stoploss
        orderId := orderId
        status := TradeStatus.EXECUTED
        confidence := sig.confidence
        createdAt := now
        closedAt := none
        exitPrice := none
        pnl := none }
    (mapSet m trade.id trade, .ok trade)

/-- AutomaticTradeExecutor.executeTradeSignals (automatic-trade-executor.ts
lines 45-81): concurrency cap, then the analysis (whose gateway failure is
rethrown), then the `!signal.signal || confidence < minConfidence` gate,
then executeTrade. -/
def executeTradeSignals (cfg : Config) (now : ℕ) (m : TradeMap)
    (analysisResp : Except String UltimateStrategy.StrategySignal)
    (orderResp : Except String String) :
    TradeMap × Except String (Option ExecutedTrade) :=
  if cfg.maxOpenTrades ≤ m.length then (m, .ok none)
  else
    match analysisResp with
    | .error e => (m, .error e)
    | .ok sig =>
      match sig.signal with
      | none => (m, .ok none)
      | some d =>
        if sig.confidence < cfg.minConfidence then (m, .ok none)
        else
          let r := executeTrade cfg now sig d orderResp m
          (r.1, r.2.map some)

/-- AutomaticTradeExecutor.monitorActiveTrades (automatic-trade-executor.ts
lines 137-165). The loop calls getPositions() once per active trade inside a
per-trade try/catch; `resps` supplies those responses in iteration order (a
missing response behaves like a failed call: the trade is left untouched).
A failed call is logged and swallowed; with no matching position the trade
becomes CLOSED with `closedAt := now`, is deleted from the map and collected;
a matching position with zero quantity flips the status to FILLED. -/
def monitorActiveTrades (cfg : Config) (now : ℕ) :
    TradeMap → List (Except String (List Position)) →
    TradeMap × List ExecutedTrade
  | [], _ => ([], [])
  | e :: rest, [] =>
    let r := monitorActiveTrades cfg now rest []
    (e :: r.1, r.2)
  | (tradeId, trade) :: rest, resp :: rs =>
    match resp with
    | .error _ =>
      let r := monitorActiveTrades cfg now rest rs
      ((tradeId, trade) :: r.1, r.2)
    | .ok positions =>
      match positions.find? (fun p => p.instrument_token == cfg.instrumentToken) with
      | none =>
        let closed := { trade with status := TradeStatus.CLOSED, closedAt := some now }
        let r := monitorActiveTrades cfg now rest rs
        (r.1, closed :: r.2)
      | some p =>
        let trade' := if p.quantity = 0 then { trade with status := TradeStatus.FILLED } else trade
        let r := monitorActiveTrades cfg now rest rs
        ((tradeId, trade') :: r.1, r.2)

/-- AutomaticTradeExecutor.closeTrade (automatic-trade-executor.ts lines
186-227). An unknown id throws "Trade ... not found" before any gateway call.
Otherwise the quote is fetched (`quoteResp` carries the token's
`last_price`; `quote[token]?.last_price || 0` is its value-or-0), the pnl is
computed, the trade object is mutated to CLOSED — before cancelOrder runs —
and only after a successful cancellation is it deleted from the map. -/
def closeTrade (cfg : Config) (now : ℕ) (m : TradeMap) (tradeId : String)
    (quoteResp : Except String (Option ℚ)) (cancelResp : Except String Unit) :
    TradeMap × Except String Bool :=
  match mapGet m tradeId with
  | none => (m, .error ("Trade " ++ tradeId ++ " not found"))
  | some trade =>
    match quoteResp with
    | .error e => (m, .error e)
    | .ok q =>
      let exitPrice := q.getD 0
      let pnl :=
        match trade.type with
        | Side.BUY => (exitPrice - trade.entryPrice) * trade.quantity
        | Side.SELL => (trade.entryPrice - exitPrice) * trade.quantity
      let trade' := { trade with
        status := TradeStatus.CLOSED
        exitPrice := some exitPrice
        pnl := some pnl
        closedAt := some now }
      let m' := mapSet m tradeId trade'
      match cancelResp with
      | .error e => (m', .error e)
      | .ok _ => (mapDelete m' tradeId, .ok true)

/-- AutomaticTradeExecutor.calculateTotalPnL (automatic-trade-executor.ts lines
232-240): accumulates `pnl` over the trades currently in the map; the JS
truthiness test `if (trade.pnl)` skips both an absent and a zero pnl. -/
def calculateTotalPnL (m : TradeMap) : ℚ :=
  m.foldl (fun acc e =>
    match e.2.pnl with
    | some p => if p = 0 then acc else acc + p
    | none => acc) 0

/-- The record returned by getStatistics; the source formats winRate, totalPnL
and avgConfidence with `toFixed(2)` for display, modelled here by their
unformatted numeric values. -/
structure Statistics where
  activeTradesCount : ℕ
  closedTradesCount : ℕ
  profitableTradesCount : ℕ
  winRate : ℚ
  totalPnL : ℚ
  avgConfidence : ℚ
deriving DecidableEq, Repr

/-- AutomaticTradeExecutor.getStatistics (automatic-trade-executor.ts lines
245-269): every aggregate ranges over `activeTrades.values()` only;
"profitable" is the JS test `t.pnl && t.pnl > 0`. -/
def getStatistics (m : TradeMap) : Statistics :=
  let trades := m.map (·.2)
  let closedTrades := trades.filter (fun t => t.status == TradeStatus.CLOSED)
  let profitableTrades := closedTrades.filter (fun t =>
    match t.pnl with
    | some p => !(p == 0) && decide (0 < p)
    | none => false)
  let totalPnL := calculateTotalPnL m
  let winRate : ℚ :=
    if 0 < closedTrades.length then
      (profitableTrades.length : ℚ) / closedTrades.length * 100
    else 0
  let avgConfidence : ℚ :=
    if 0 < trades.length then
      (trades.map (·.confidence)).sum / trades.length
    else 0
  { activeTradesCount := (trades.filter (fun t => !(t.status == TradeStatus.CLOSED))).length
    closedTradesCount := closedTrades.length
    profitableTradesCount := profitableTrades.length
    winRate := winRate
    totalPnL := totalPnL
    avgConfidence := avgConfidence }

/-- The mutated trade record that closeTrade commits before calling
cancelOrder: status CLOSED, exit price `last_price || 0`, signed pnl and close
time. Named so the lifecycle theorems can speak about the partially-committed
state. -/
def closedUpdate (t : ExecutedTrade) (q : Option ℚ) (now : ℕ) : ExecutedTrade :=
  { t with
    status := TradeStatus.CLOSED
    exitPrice := some (q.getD 0)
    pnl := some
      (match t.type with
       | Side.BUY => (q.getD 0 - t.entryPrice) * t.quantity
       | Side.SELL => (t.entryPrice - q.getD 0) * t.quantity)
    closedAt := some now }

/-- The trade record that executeTrade builds on a successful
placeBracketOrder (automatic-trade-executor.ts lines 100-112), named for use
in lifecycle proofs. -/
def recordedTrade (cfg : Config) (now : ℕ) (sig : UltimateStrategy.StrategySignal)
    (d : Side) (orderId : String) : ExecutedTrade :=
  { id := sig.symbol ++ "_" ++ toString now
    symbol := sig.symbol
    type := d
    entryPrice := sig.price
    quantity := cfg.quantity
    target := sig.target
    stoploss := sig.stoploss
    orderId := orderId
    status := TradeStatus.EXECUTED
    confidence := sig.confidence
    createdAt := now
    closedAt := none
    exitPrice := none
    pnl := none }

/-- A concrete executor configuration. -/
def cfgEx : Config :=
  { symbol := "RELIANCE", instrumentToken := 738561, quantity := 5,
    minConfidence := 80, maxRiskPerTrade := 2, maxOpenTrades := 3 }

/-- A concrete executed BUY trade: entry 100, quantity 5, not yet closed. -/
def exTrade : ExecutedTrade :=
  { id := "T1", symbol := "RELIANCE", type := Side.BUY, entryPrice := 100,
    quantity := 5, target := 104, stoploss := 98, orderId := "O1",
    status := TradeStatus.EXECUTED, confidence := 90, createdAt := 0,
    closedAt := none, exitPrice := none, pnl := none }

/-- A one-trade active map holding `exTrade` under its id. -/
def m1 : TradeMap :=
  [("T1", exTrade)]

/-- A concrete high-confidence BUY strategy signal. -/
def exSig : UltimateStrategy.StrategySignal :=
  { symbol := "RELIANCE", instrumentToken := 738561, signal := some Side.BUY,
    confidence := 90, signalsMatched := [], timestamp := 0, price := 100,
    target := 104, stoploss := 98, riskReward := 2 }

/-- The trade record that executing `exSig` at tick 0 under `cfgEx` records. -/
def exeProduced : ExecutedTrade :=
  { id := "RELIANCE" ++ "_" ++ toString 0, symbol := "RELIANCE",
    type := Side.BUY, entryPrice := 100, quantity := 5, target := 104,
    stoploss := 98, orderId := "O1", status := TradeStatus.EXECUTED,
    confidence := 90, createdAt := 0, closedAt := none, exitPrice := none,
    pnl := none }

end TradeExecutor

namespace OptionsTrade

/-- Option type designator (src/packages/server/src/services/options-trading.ts
line 6): Call (CE) or Put (PE). -/
inductive OptionType
  | CE
  | PE
deriving DecidableEq, Repr

/-- The greeks record returned by calculateGreeks. -/
structure Greeks where
  delta : ℝ
  gamma : ℝ
  theta : ℝ
  vega : ℝ
  rho : ℝ

/-- JS `Math.round`: half-up rounding, also for negative arguments. -/
noncomputable def jsRound (x : ℝ) : ℝ :=
  (⌊x + 1 / 2⌋ : ℤ)

/-- OptionsTradeService.normalDistribution (options-trading.ts lines 349-370):
the Abramowitz-Stegun style polynomial approximation of the standard normal
CDF, reflected for negative arguments. -/
noncomputable def normalDistribution (x : ℝ) : ℝ :=
  let t : ℝ := 1 / (1 + 0.2316419 * |x|)
  let d : ℝ := 0.3989423 * Real.exp (-x * x / 2)
  let prob :=
    d * t *
      (0.319381530 +
        t * (-0.356563782 + t * (1.781477937 + t * (-1.821255978 + t * 1.330274429))))
  if 0 ≤ x then 1 - prob else prob

/-- OptionsTradeService.calculateGreeks (options-trading.ts lines 69-121):
time in days over 365, volatility as a percentage, and each greek rounded for
display exactly as in the source. -/
noncomputable def calculateGreeks (spotPrice strikePrice timeToExpiry volatility
    riskFreeRate : ℝ) (optionType : OptionType) : Greeks :=
  let T := timeToExpiry / 365
  let sigma := volatility / 100
  let r := riskFreeRate
  let d1 :=
    (Real.log (spotPrice / strikePrice) + (r + sigma * sigma / 2) * T) /
      (sigma * Real.sqrt T)
  let d2 := d1 - sigma * Real.sqrt T
  let N_d1 := normalDistribution d1
  let N_d2 := normalDistribution d2
  let n_d1 := 1 / Real.sqrt (2 * Real.pi) * Real.exp (-(d1 * d1) / 2)
  let delta :=
    match optionType with
    | OptionType.CE => N_d1
    | OptionType.PE => N_d1 - 1
  let gamma := n_d1 / (spotPrice * sigma * Real.sqrt T)
  let theta :=
    match optionType with
    | OptionType.CE =>
      (-(spotPrice * n_d1 * sigma) / (2 * Real.sqrt T) -
          r * strikePrice * Real.exp (-r * T) * N_d2) / 365
    | OptionType.PE =>
      (-(spotPrice * n_d1 * sigma) / (2 * Real.sqrt T) +
          r * strikePrice * Real.exp (-r * T) * (1 - N_d2)) / 365
  let vega := spotPrice * n_d1 * Real.sqrt T / 100
  let rho :=
    match optionType with
    | OptionType.CE => strikePrice * T * Real.exp (-r * T) * N_d2 / 100
    | OptionType.PE => -strikePrice * T * Real.exp (-r * T) * (1 - N_d2) / 100
  { delta := jsRound (delta * 100) / 100
    gamma := jsRound (gamma * 10000) / 10000
    theta := jsRound (theta * 100) / 100
    vega := jsRound (vega * 100) / 100
    rho := jsRound (rho * 100) / 100 }

end OptionsTrade

/-! Spec-side comparison definitions and concrete inputs. -/

/-- MACD line per spec §4.1: `EMA12 − EMA26` of a close series. -/
def macdLine (closes : List ℚ) : ℚ :=
  SignalDetection.calculateEMA closes 12 - SignalDetection.calculateEMA closes 26

/-- Modelled from the spec (§4.1): the rolling MACD-line history of a close
series — the MACD line of every prefix long enough for the 26-period EMA —
of which the signal line is the EMA9. -/
def specMacdSeries (closes : List ℚ) : List ℚ :=
  ((List.range (closes.length + 1)).filter (fun k => 26 ≤ k)).map
    (fun k => macdLine (closes.take k))

/-- Modelled from the spec (§4.1-4.2): the MACD detector as the spec describes
it — same crossing logic as the source's detectMACD, but with the signal line
taken as the EMA9 of the rolling MACD-line history rather than of the
one-element list holding the current MACD value. -/
def specDetectMACD (candles : List Candle) : Option Side :=
  if candles.length < 26 then none
  else
    let closes := candles.map (·.close)
    let macd := macdLine closes
    let prevCloses := closes.dropLast
    let prevMACD := macdLine prevCloses
    let signal := SignalDetection.calculateEMA (specMacdSeries closes) 9
    let prevSignal := SignalDetection.calculateEMA (specMacdSeries prevCloses) 9
    if prevMACD ≤ prevSignal ∧ macd > signal then some Side.BUY
    else if prevMACD ≥ prevSignal ∧ macd < signal then some Side.SELL
    else none

/-- Degenerate candle whose four prices all equal `v` (satisfies the candle
invariant). -/
def flatCandle (v : ℚ) : Candle :=
  { o := v, high := v, low := v, close := v, volume := 0 }

/-- Concrete 27-candle series: 26 closes at 100 followed by one at 110, an
upward MACD crossover under the spec's rolling signal line. -/
def macdExCandles : List Candle :=
  List.replicate 26 (flatCandle 100) ++ [flatCandle 110]

/-- Strictly increasing 15-close series (spec concrete scenario 2). -/
def rsiExCloses : List ℚ :=
  [1, 2, 3, 4, 5, 6, 7, 8, 9, 10, 11, 12, 13, 14, 15]

/-- The same series as candles. -/
def rsiExCandles : List Candle :=
  rsiExCloses.map flatCandle

/-- First candle of spec concrete scenario 3. -/
def atrC1 : Candle :=
  { o := 9, high := 10, low := 8, close := 9, volume := 0 }

/-- Second candle of spec concrete scenario 3. -/
def atrC2 : Candle :=
  { o := 10, high := 12, low := 9, close := 11, volume := 0 }

/-- A concrete ten-opinion record: nine BUY opinions, one undecided. -/
def exSignals : UltimateStrategy.Signals :=
  { maCrossover1h := some Side.BUY
    rsi1h := some Side.BUY
    macd1h := some Side.BUY
    bollingerBands1h := some Side.BUY
    maCrossover15m := some Side.BUY
    rsi15m := some Side.BUY
    macd15m := some Side.BUY
    volumeConfirmation := some Side.BUY
    trendStrength := some Side.BUY
    srBounce := none }

/-- Flat-bottomed candle of range `r` used to pin the ATR to a chosen value. -/
def rangeCandle (r : ℚ) : Candle :=
  { o := 0, high := r, low := 0, close := 0, volume := 0 }

/-- Fifteen candles of constant range `r`: every true range is `r`, so the
14-period ATR is exactly `r`. -/
def rangeCandles (r : ℚ) : List Candle :=
  List.replicate 15 (rangeCandle r)

/-- C4: the source's MACD detector can never report the claimed crossover.
It computes the signal line as `calculateEMA([macd], 9)`, the EMA of the
one-element list holding the current MACD value, which equals the MACD line
itself, so both crossover tests compare a number with itself and fail: the
detector returns NONE on every candle sequence. On the concrete 27-candle
series macdExCandles the spec's rolling-history signal line reports a BUY
crossover, which the code misses. -/
theorem detectMACD_always_none :
    (∀ candles, SignalDetection.detectMACD candles = none) ∧
    specDetectMACD macdExCandles = some Side.BUY ∧
    SignalDetection.detectMACD macdExCandles = none := by
  have hall : ∀ candles, SignalDetection.detectMACD candles = none := by
    intro candles
    unfold SignalDetection.detectMACD
    split
    · rfl
    · simp [SignalDetection.calculateEMA, lt_irrefl]
  refine ⟨hall, ?_, hall macdExCandles⟩
  unfold specDetectMACD
  norm_num [macdExCandles, flatCandle, macdLine, specMacdSeries,
    SignalDetection.calculateEMA, List.replicate, List.range_succ]

/-- C5: on the strictly increasing 15-close series the average loss is zero and
both RSI implementations take their explicit division-by-zero guard, but
neither returns 100: SignalDetectionService sets `RS := 0` and returns
`100 − 100/(1+0) = 0`, and AIMarketAnalysisService sets `RS := 100` and
returns `100 − 100/101 = 10000/101 ≈ 99.0099`. -/
theorem rsi_no_loss_guard_values :
    SignalDetection.calculateRSI rsiExCandles 14 = 0 ∧
    AIMarketAnalysis.calculateRSI rsiExCloses 14 = 10000 / 101 := by
  constructor
  · norm_num [SignalDetection.calculateRSI, rsiExCandles, rsiExCloses, flatCandle]
  · norm_num [AIMarketAnalysis.calculateRSI, rsiExCloses]

/-- Helper: the entries list of a Signals record always has ten elements. -/
theorem signals_entries_length (s : UltimateStrategy.Signals) :
    s.entries.length = 10 :=
  rfl

/-- C1: every analysis evaluates exactly ten indicator opinions; whenever the
BUY and SELL tallies differ the reported confidence is
`(majority count / 10) × 100`; a tie yields confidence 0 (there is no majority
direction) and direction NONE; and any confidence below the default threshold
80 yields direction NONE. -/
theorem consensus_confidence_invariant (symbol : String) (tok : ℕ)
    (s : UltimateStrategy.Signals) (price : ℚ) (candles : List Candle) (now : ℕ) :
    s.entries.length = 10 ∧
    (s.buyCount ≠ s.sellCount →
      (UltimateStrategy.analyzeCore symbol tok s price candles now).confidence =
        (max s.buyCount s.sellCount : ℚ) / 10 * 100) ∧
    (s.buyCount = s.sellCount →
      (UltimateStrategy.analyzeCore symbol tok s price candles now).confidence = 0 ∧
      (UltimateStrategy.analyzeCore symbol tok s price candles now).signal = none) ∧
    ((UltimateStrategy.analyzeCore symbol tok s price candles now).confidence < 80 →
      (UltimateStrategy.analyzeCore symbol tok s price candles now).signal = none) := by
  have hconf : (UltimateStrategy.analyzeCore symbol tok s price candles now).confidence =
      (UltimateStrategy.calculateConfidence s).1 := rfl
  have hsig : (UltimateStrategy.analyzeCore symbol tok s price candles now).signal =
      UltimateStrategy.determineFinalSignal s (UltimateStrategy.calculateConfidence s).1 := rfl
  have hlen : ((s.entries.length : ℕ) : ℚ) = 10 := by
    rw [signals_entries_length]
    norm_num
  have hthresh : ∀ c : ℚ, c < 80 → UltimateStrategy.determineFinalSignal s c = none := by
    intro c hc
    unfold UltimateStrategy.determineFinalSignal UltimateStrategy.minConfidenceThreshold
    rw [if_pos hc]
  refine ⟨signals_entries_length s, ?_, ?_, ?_⟩
  · intro hne
    rw [hconf]
    unfold UltimateStrategy.calculateConfidence
    rcases Nat.lt_trichotomy s.sellCount s.buyCount with h | h | h
    · simp only [if_pos h, hlen]
      rw [max_eq_left (by exact_mod_cast h.le : ((s.sellCount : ℚ)) ≤ s.buyCount)]
    · exact absurd h.symm hne
    · simp only [if_neg (Nat.lt_asymm h), if_pos h, hlen]
      rw [max_eq_right (by exact_mod_cast h.le : ((s.buyCount : ℚ)) ≤ s.sellCount)]
  · intro heq
    have hc0 : (UltimateStrategy.calculateConfidence s).1 = 0 := by
      unfold UltimateStrategy.calculateConfidence
      simp [heq]
    refine ⟨by rw [hconf, hc0], ?_⟩
    rw [hsig, hc0]
    exact hthresh 0 (by norm_num)
  · intro hlt
    rw [hconf] at hlt
    rw [hsig]
    exact hthresh _ hlt

/-- Every true-range entry produced by UltimateStrategy.calculateATR is
nonnegative (it is a max over an absolute value). -/
theorem ultimate_trList_nonneg (candles : List Candle) (x : ℚ)
    (hx : x ∈ (candles.zip candles.tail).map (fun pc =>
      max (pc.2.high - pc.2.low)
        (max |pc.2.high - pc.1.close| |pc.2.low - pc.1.close|))) : 0 ≤ x := by
  rcases List.mem_map.mp hx with ⟨pc, _, rfl⟩
  exact le_trans (abs_nonneg _) (le_trans (le_max_left _ _) (le_max_right _ _))

/-- A candle satisfying the invariant has `low ≤ high`. -/
theorem candleInv_low_le_high {c : Candle} (h : candleInv c) : c.low ≤ c.high :=
  le_trans (le_trans h.2 (le_trans (min_le_left _ _) (le_max_left _ _))) h.1

/-- C6 (amended): for a positive period and candles satisfying the §3 candle
invariant, both ATR implementations are nonnegative, and
UltimateStrategy.calculateATR returns 0 whenever there are fewer than `period`
candles — strictly fewer, not `≤ period` as claimed: with exactly `period`
candles it already averages the `period − 1` available true ranges, and the
route-level calculateATR of src/unnamed/part_006 has no length guard at all. -/
theorem atr_nonneg_and_short_history (candles : List Candle) (period : ℕ)
    (hp : 0 < period) (hinv : ∀ c ∈ candles, candleInv c) :
    0 ≤ UltimateStrategy.calculateATR candles period ∧
    (candles.length < period → UltimateStrategy.calculateATR candles period = 0) ∧
    0 ≤ TradingRoutes.calculateATR candles period := by
  refine ⟨?_, ?_, ?_⟩
  · unfold UltimateStrategy.calculateATR
    split
    · exact le_refl 0
    · refine div_nonneg (List.sum_nonneg ?_) (by positivity)
      intro x hx
      exact ultimate_trList_nonneg candles x ((List.drop_subset _ _) hx)
  · intro hlt
    unfold UltimateStrategy.calculateATR
    rw [if_pos hlt]
  · unfold TradingRoutes.calculateATR
    refine div_nonneg (List.sum_nonneg ?_) (by positivity)
    intro x hx
    have hx' := (List.drop_subset _ _) hx
    rcases List.mem_map.mp hx' with ⟨ic, hmem, rfl⟩
    have hcmem : ic.2 ∈ candles := List.snd_mem_of_mem_enum hmem
    have hlh : ic.2.low ≤ ic.2.high := candleInv_low_le_high (hinv _ hcmem)
    by_cases h0 : ic.1 = 0
    · simpa [h0] using sub_nonneg.mpr hlh
    · rw [if_neg h0]
      cases candles[ic.1 - 1]? with
      | none => simpa using sub_nonneg.mpr hlh
      | some prev =>
        exact le_trans (abs_nonneg _)
          (le_trans (le_max_left _ _) (le_max_right _ _))


/-- Witness for C6: the amended statement applied to the two scenario-3
candles with period 14 (short history, so the guarded ATR is 0). -/
theorem atr_nonneg_and_short_history_witness :
    0 ≤ UltimateStrategy.calculateATR [atrC1, atrC2] 14 ∧
    ([atrC1, atrC2].length < 14 → UltimateStrategy.calculateATR [atrC1, atrC2] 14 = 0) ∧
    0 ≤ TradingRoutes.calculateATR [atrC1, atrC2] 14 := by
  refine atr_nonneg_and_short_history [atrC1, atrC2] 14 (by norm_num) ?_
  intro c hc
  simp only [List.mem_cons, List.not_mem_nil, or_false] at hc
  rcases hc with rfl | rfl
  · constructor <;> norm_num [atrC1]
  · constructor <;> norm_num [atrC2]

/-- C6 counterexample: both candles satisfy the candle invariant and the
history is not longer than the period, yet neither implementation returns 0:
UltimateStrategy.calculateATR on the two scenario-3 candles with period 2
averages the single true range 3 over the period, giving 3/2, and the
route-level calculateATR on one candle with period 14 gives (10−8)/14 = 1/7. -/
theorem atr_short_history_counterexample :
    ((∀ c ∈ [atrC1, atrC2], candleInv c) ∧ [atrC1, atrC2].length ≤ 2 ∧
      UltimateStrategy.calculateATR [atrC1, atrC2] 2 = 3 / 2) ∧
    ([atrC1].length ≤ 14 ∧ TradingRoutes.calculateATR [atrC1] 14 = 1 / 7) := by
  refine ⟨⟨?_, by norm_num, ?_⟩, by norm_num, ?_⟩
  · intro c hc
    simp only [List.mem_cons, List.not_mem_nil, or_false] at hc
    rcases hc with rfl | rfl
    · constructor <;> norm_num [atrC1, candleInv]
    · constructor <;> norm_num [atrC2, candleInv]
  · norm_num [UltimateStrategy.calculateATR, lastN, atrC1, atrC2]
  · norm_num [TradingRoutes.calculateATR, lastN, atrC1, List.enum]

/-- C7 (amended): when the analysis direction is BUY the emitted levels are
`target = price + 2·atr` and `stoploss = price − atr` with `atr` the 14-period
ATR of the 1-hour candles (mirrored for SELL), and the emitted risk-reward
value equals `|target − price| / |price − stoploss|` except that it is 0 both
when the stoploss equals the price and when the stoploss is 0 (an extra guard
in calculateRiskReward that the claim omits). -/
theorem risk_levels (symbol : String) (tok : ℕ) (s : UltimateStrategy.Signals)
    (price : ℚ) (candles : List Candle) (now : ℕ) :
    ((UltimateStrategy.analyzeCore symbol tok s price candles now).signal = some Side.BUY →
      (UltimateStrategy.analyzeCore symbol tok s price candles now).target =
        price + 2 * UltimateStrategy.calculateATR candles 14 ∧
      (UltimateStrategy.analyzeCore symbol tok s price candles now).stoploss =
        price - UltimateStrategy.calculateATR candles 14) ∧
    ((UltimateStrategy.analyzeCore symbol tok s price candles now).signal = some Side.SELL →
      (UltimateStrategy.analyzeCore symbol tok s price candles now).target =
        price - 2 * UltimateStrategy.calculateATR candles 14 ∧
      (UltimateStrategy.analyzeCore symbol tok s price candles now).stoploss =
        price + UltimateStrategy.calculateATR candles 14) ∧
    ((UltimateStrategy.analyzeCore symbol tok s price candles now).stoploss ≠ 0 →
      (UltimateStrategy.analyzeCore symbol tok s price candles now).stoploss ≠ price →
      (UltimateStrategy.analyzeCore symbol tok s price candles now).riskReward =
        |(UltimateStrategy.analyzeCore symbol tok s price candles now).target - price| /
          |price - (UltimateStrategy.analyzeCore symbol tok s price candles now).stoploss|) ∧
    ((UltimateStrategy.analyzeCore symbol tok s price candles now).stoploss = 0 ∨
      (UltimateStrategy.analyzeCore symbol tok s price candles now).stoploss = price →
      (UltimateStrategy.analyzeCore symbol tok s price candles now).riskReward = 0) := by
  refine ⟨?_, ?_, ?_, ?_⟩
  · intro hB
    have hfs : UltimateStrategy.determineFinalSignal s
        (UltimateStrategy.calculateConfidence s).1 = some Side.BUY := hB
    constructor
    · show (UltimateStrategy.calculateRiskManagement price
        (UltimateStrategy.determineFinalSignal s
          (UltimateStrategy.calculateConfidence s).1) candles).1 = _
      rw [hfs]
      show price + UltimateStrategy.calculateATR candles 14 * 2 = _
      ring
    · show (UltimateStrategy.calculateRiskManagement price
        (UltimateStrategy.determineFinalSignal s
          (UltimateStrategy.calculateConfidence s).1) candles).2 = _
      rw [hfs]
      rfl
  · intro hS
    have hfs : UltimateStrategy.determineFinalSignal s
        (UltimateStrategy.calculateConfidence s).1 = some Side.SELL := hS
    constructor
    · show (UltimateStrategy.calculateRiskManagement price
        (UltimateStrategy.determineFinalSignal s
          (UltimateStrategy.calculateConfidence s).1) candles).1 = _
      rw [hfs]
      show price - UltimateStrategy.calculateATR candles 14 * 2 = _
      ring
    · show (UltimateStrategy.calculateRiskManagement price
        (UltimateStrategy.determineFinalSignal s
          (UltimateStrategy.calculateConfidence s).1) candles).2 = _
      rw [hfs]
      rfl
  · intro h0 hp
    show UltimateStrategy.calculateRiskReward price _ _ = _
    unfold UltimateStrategy.calculateRiskReward
    split
    · next hcond =>
        rcases hcond with hc | hc
        · exact absurd hc h0
        · exact absurd hc hp
    · rfl
  · intro h
    show UltimateStrategy.calculateRiskReward price _ _ = 0
    unfold UltimateStrategy.calculateRiskReward
    split
    · rfl
    · next hcond => exact absurd h hcond


/-- On the nine-BUY record the final signal is BUY (confidence 90 ≥ 80). -/
theorem exSignals_final_buy :
    UltimateStrategy.determineFinalSignal exSignals
      (UltimateStrategy.calculateConfidence exSignals).1 = some Side.BUY := by
  have hbc : exSignals.buyCount = 9 := by decide
  have hsc : exSignals.sellCount = 0 := by decide
  have hconf : (UltimateStrategy.calculateConfidence exSignals).1 = 90 := by
    unfold UltimateStrategy.calculateConfidence
    rw [hbc, hsc, signals_entries_length]
    norm_num
  rw [hconf]
  unfold UltimateStrategy.determineFinalSignal UltimateStrategy.minConfidenceThreshold
  rw [if_neg (by norm_num)]
  rw [if_pos (show exSignals.sellCount < exSignals.buyCount by decide)]


/-- The 14-period ATR of `rangeCandles r` is `r` (for a nonnegative range). -/
theorem calculateATR_rangeCandles (r : ℚ) (hr : 0 ≤ r) :
    UltimateStrategy.calculateATR (rangeCandles r) 14 = r := by
  norm_num [UltimateStrategy.calculateATR, rangeCandles, rangeCandle, lastN,
    List.replicate, abs_of_nonneg hr, max_self, max_eq_left hr]
  ring

/-- Witness for C7 (spec concrete scenario 4): a BUY analysis at price 100
with ATR 2 emits target 104, stoploss 98 and risk-reward 2. -/
theorem risk_levels_witness :
    (UltimateStrategy.analyzeCore "X" 1 exSignals 100 (rangeCandles 2) 0).signal =
      some Side.BUY ∧
    (UltimateStrategy.analyzeCore "X" 1 exSignals 100 (rangeCandles 2) 0).target = 104 ∧
    (UltimateStrategy.analyzeCore "X" 1 exSignals 100 (rangeCandles 2) 0).stoploss = 98 ∧
    (UltimateStrategy.analyzeCore "X" 1 exSignals 100 (rangeCandles 2) 0).riskReward = 2 := by
  have hatr : UltimateStrategy.calculateATR (rangeCandles 2) 14 = 2 :=
    calculateATR_rangeCandles 2 (by norm_num)
  have hB : (UltimateStrategy.analyzeCore "X" 1 exSignals 100 (rangeCandles 2) 0).signal =
      some Side.BUY := exSignals_final_buy
  have h := risk_levels "X" 1 exSignals 100 (rangeCandles 2) 0
  have htv : (UltimateStrategy.analyzeCore "X" 1 exSignals 100 (rangeCandles 2) 0).target =
      104 := by
    rw [(h.1 hB).1, hatr]
    norm_num
  have hsv : (UltimateStrategy.analyzeCore "X" 1 exSignals 100 (rangeCandles 2) 0).stoploss =
      98 := by
    rw [(h.1 hB).2, hatr]
    norm_num
  refine ⟨hB, htv, hsv, ?_⟩
  rw [h.2.2.1 (by rw [hsv]; norm_num) (by rw [hsv]; norm_num), htv, hsv]
  norm_num

/-- C7 counterexample: a BUY analysis at price 3 with ATR 3 yields stoploss 0,
which differs from the price, yet the emitted risk-reward is 0 while the
claimed formula `|target − price| / |price − stoploss|` evaluates to 2 —
calculateRiskReward has an extra `stoploss === 0` guard the claim omits. -/
theorem risk_reward_zero_stoploss_counterexample :
    (UltimateStrategy.analyzeCore "X" 1 exSignals 3 (rangeCandles 3) 0).signal =
      some Side.BUY ∧
    (UltimateStrategy.analyzeCore "X" 1 exSignals 3 (rangeCandles 3) 0).stoploss = 0 ∧
    (UltimateStrategy.analyzeCore "X" 1 exSignals 3 (rangeCandles 3) 0).stoploss ≠
      (UltimateStrategy.analyzeCore "X" 1 exSignals 3 (rangeCandles 3) 0).price ∧
    (UltimateStrategy.analyzeCore "X" 1 exSignals 3 (rangeCandles 3) 0).riskReward = 0 ∧
    |(UltimateStrategy.analyzeCore "X" 1 exSignals 3 (rangeCandles 3) 0).target -
        (UltimateStrategy.analyzeCore "X" 1 exSignals 3 (rangeCandles 3) 0).price| /
      |(UltimateStrategy.analyzeCore "X" 1 exSignals 3 (rangeCandles 3) 0).price -
        (UltimateStrategy.analyzeCore "X" 1 exSignals 3 (rangeCandles 3) 0).stoploss| = 2 := by
  have hatr : UltimateStrategy.calculateATR (rangeCandles 3) 14 = 3 :=
    calculateATR_rangeCandles 3 (by norm_num)
  have hfs := exSignals_final_buy
  have hB : (UltimateStrategy.analyzeCore "X" 1 exSignals 3 (rangeCandles 3) 0).signal =
      some Side.BUY := hfs
  have hprice : (UltimateStrategy.analyzeCore "X" 1 exSignals 3 (rangeCandles 3) 0).price =
      3 := rfl
  have hsv : (UltimateStrategy.analyzeCore "X" 1 exSignals 3 (rangeCandles 3) 0).stoploss =
      0 := by
    show (UltimateStrategy.calculateRiskManagement 3 (UltimateStrategy.determineFinalSignal
      exSignals (UltimateStrategy.calculateConfidence exSignals).1) (rangeCandles 3)).2 = 0
    rw [hfs]
    show 3 - UltimateStrategy.calculateATR (rangeCandles 3) 14 = 0
    rw [hatr]
    norm_num
  have htv : (UltimateStrategy.analyzeCore "X" 1 exSignals 3 (rangeCandles 3) 0).target =
      9 := by
    show (UltimateStrategy.calculateRiskManagement 3 (UltimateStrategy.determineFinalSignal
      exSignals (UltimateStrategy.calculateConfidence exSignals).1) (rangeCandles 3)).1 = 9
    rw [hfs]
    show 3 + UltimateStrategy.calculateATR (rangeCandles 3) 14 * 2 = 9
    rw [hatr]
    norm_num
  refine ⟨hB, hsv, ?_, ?_, ?_⟩
  · rw [hsv, hprice]
    norm_num
  · show UltimateStrategy.calculateRiskReward 3 _ _ = 0
    unfold UltimateStrategy.calculateRiskReward
    split
    · rfl
    · next hcond => exact absurd (Or.inl hsv) hcond
  · rw [htv, hsv, hprice]
    norm_num

/-- Witness for C1: at the nine-BUY record the tallies differ, and the theorem
yields confidence `(9/10) × 100`. -/
theorem consensus_confidence_invariant_witness :
    exSignals.buyCount ≠ exSignals.sellCount ∧
    (UltimateStrategy.analyzeCore "X" 1 exSignals 100 [] 0).confidence =
      (max exSignals.buyCount exSignals.sellCount : ℚ) / 10 * 100 :=
  ⟨by decide, (consensus_confidence_invariant "X" 1 exSignals 100 [] 0).2.1 (by decide)⟩

/-- C10: closing an unknown trade id throws "Trade ... not found" before any
gateway interaction — the result is the same for every quote and cancel
response — and the active-trade map is returned unchanged. -/
theorem closeTrade_unknown_id (cfg : TradeExecutor.Config) (now : ℕ)
    (m : TradeExecutor.TradeMap) (tradeId : String)
    (quoteResp : Except String (Option ℚ)) (cancelResp : Except String Unit)
    (h : TradeExecutor.mapGet m tradeId = none) :
    TradeExecutor.closeTrade cfg now m tradeId quoteResp cancelResp =
      (m, Except.error ("Trade " ++ tradeId ++ " not found")) := by
  unfold TradeExecutor.closeTrade
  rw [h]

/-- Witness for C10: the empty map knows no trade "T9", so closing it throws
with the map unchanged, regardless of the gateway responses supplied. -/
theorem closeTrade_unknown_id_witness :
    TradeExecutor.mapGet [] "T9" = none ∧
    TradeExecutor.closeTrade TradeExecutor.cfgEx 0 [] "T9"
        (Except.ok (some 100)) (Except.ok ()) =
      ([], Except.error "Trade T9 not found") :=
  ⟨rfl, closeTrade_unknown_id TradeExecutor.cfgEx 0 [] "T9"
    (Except.ok (some 100)) (Except.ok ()) rfl⟩

/-- C3 (amended): gateway-failure behaviour per lifecycle operation.
Execution (both executeTrade and an executeTradeSignals whose analysis
fails) propagates the error value unmodified with the map untouched; the
monitor loop swallows a failing getPositions call, leaving that trade in
place and continuing; a manual close whose quote fetch fails propagates the
error with the map untouched; but a manual close whose cancelOrder call
fails propagates the error only after the trade has already been rewritten
in the map as closed (status CLOSED, exitPrice/pnl/closedAt set) — the
claimed no-partial-mutation property fails on that path. -/
theorem gateway_failure_effects :
    (∀ cfg now sig d e m,
      TradeExecutor.executeTrade cfg now sig d (Except.error e) m =
        (m, Except.error e)) ∧
    (∀ cfg now (m : TradeExecutor.TradeMap) (e : String) orderResp,
      m.length < cfg.maxOpenTrades →
      TradeExecutor.executeTradeSignals cfg now m (Except.error e) orderResp =
        (m, Except.error e)) ∧
    (∀ cfg now tid t rest (e : String) rs,
      TradeExecutor.monitorActiveTrades cfg now ((tid, t) :: rest)
          (Except.error e :: rs) =
        ((tid, t) :: (TradeExecutor.monitorActiveTrades cfg now rest rs).1,
          (TradeExecutor.monitorActiveTrades cfg now rest rs).2)) ∧
    (∀ cfg now m tradeId t (e : String) cancelResp,
      TradeExecutor.mapGet m tradeId = some t →
      TradeExecutor.closeTrade cfg now m tradeId (Except.error e) cancelResp =
        (m, Except.error e)) ∧
    (∀ cfg now m tradeId t q (e : String),
      TradeExecutor.mapGet m tradeId = some t →
      TradeExecutor.closeTrade cfg now m tradeId (Except.ok q) (Except.error e) =
        (TradeExecutor.mapSet m tradeId (TradeExecutor.closedUpdate t q now),
          Except.error e)) := by
  refine ⟨?_, ?_, ?_, ?_, ?_⟩
  · intro cfg now sig d e m
    rfl
  · intro cfg now m e orderResp h
    unfold TradeExecutor.executeTradeSignals
    rw [if_neg (not_le.mpr h)]
  · intro cfg now tid t rest e rs
    rfl
  · intro cfg now m tradeId t e cancelResp h
    unfold TradeExecutor.closeTrade
    rw [h]
  · intro cfg now m tradeId t q e h
    unfold TradeExecutor.closeTrade
    rw [h]
    rfl

/-- Witness for C3: on the one-trade map, a manual close whose quote succeeds
at 110 but whose cancellation fails with "network down" rethrows that very
error and leaves the map holding the partially-committed closed trade. -/
theorem gateway_failure_effects_witness :
    TradeExecutor.mapGet TradeExecutor.m1 "T1" = some TradeExecutor.exTrade ∧
    TradeExecutor.closeTrade TradeExecutor.cfgEx 7 TradeExecutor.m1 "T1"
        (Except.ok (some 110)) (Except.error "network down") =
      (TradeExecutor.mapSet TradeExecutor.m1 "T1"
          (TradeExecutor.closedUpdate TradeExecutor.exTrade (some 110) 7),
        Except.error "network down") :=
  ⟨rfl, gateway_failure_effects.2.2.2.2 TradeExecutor.cfgEx 7 TradeExecutor.m1
    "T1" TradeExecutor.exTrade (some 110) "network down" rfl⟩

/-- C3 counterexample: after cancelOrder fails during a manual close, the
error propagates but the trade's recorded state is not what it was before the
call — it now sits in the active map with status CLOSED, exitPrice 110,
pnl 50 and closedAt 7, contradicting the claimed atomicity. -/
theorem closeTrade_partial_mutation_counterexample :
    (TradeExecutor.closeTrade TradeExecutor.cfgEx 7 TradeExecutor.m1 "T1"
        (Except.ok (some 110)) (Except.error "network down")).2 =
      Except.error "network down" ∧
    TradeExecutor.mapGet
        (TradeExecutor.closeTrade TradeExecutor.cfgEx 7 TradeExecutor.m1 "T1"
          (Except.ok (some 110)) (Except.error "network down")).1 "T1" =
      some { TradeExecutor.exTrade with
        status := TradeExecutor.TradeStatus.CLOSED
        exitPrice := some 110
        pnl := some 50
        closedAt := some 7 } ∧
    TradeExecutor.mapGet
        (TradeExecutor.closeTrade TradeExecutor.cfgEx 7 TradeExecutor.m1 "T1"
          (Except.ok (some 110)) (Except.error "network down")).1 "T1" ≠
      some TradeExecutor.exTrade := by
  have h2 : TradeExecutor.mapGet
      (TradeExecutor.closeTrade TradeExecutor.cfgEx 7 TradeExecutor.m1 "T1"
        (Except.ok (some 110)) (Except.error "network down")).1 "T1" =
      some { TradeExecutor.exTrade with
        status := TradeExecutor.TradeStatus.CLOSED
        exitPrice := some 110
        pnl := some 50
        closedAt := some 7 } := by
    show some (TradeExecutor.closedUpdate TradeExecutor.exTrade (some 110) 7) = _
    norm_num [TradeExecutor.closedUpdate, TradeExecutor.exTrade]
  refine ⟨rfl, h2, ?_⟩
  rw [h2]
  intro hcontra
  exact TradeExecutor.TradeStatus.noConfusion
    (congrArg TradeExecutor.ExecutedTrade.status (Option.some.inj hcontra))

/-- Monitor step on a failing getPositions call: the error is swallowed and
the trade is left untouched. -/
theorem monitor_cons_error (cfg : TradeExecutor.Config) (now : ℕ)
    (tid : String) (t : TradeExecutor.ExecutedTrade)
    (rest : TradeExecutor.TradeMap) (e : String)
    (rs : List (Except String (List TradeExecutor.Position))) :
    TradeExecutor.monitorActiveTrades cfg now ((tid, t) :: rest) (Except.error e :: rs) =
      ((tid, t) :: (TradeExecutor.monitorActiveTrades cfg now rest rs).1,
        (TradeExecutor.monitorActiveTrades cfg now rest rs).2) :=
  rfl

/-- Monitoring an empty active map does nothing. -/
theorem monitor_nil (cfg : TradeExecutor.Config) (now : ℕ)
    (rs : List (Except String (List TradeExecutor.Position))) :
    TradeExecutor.monitorActiveTrades cfg now [] rs = ([], []) :=
  rfl

/-- Monitor step when getPositions reports no position for the configured
instrument: the trade is closed, deleted from the map, and collected. -/
theorem monitor_cons_ok_none (cfg : TradeExecutor.Config) (now : ℕ)
    (tid : String) (t : TradeExecutor.ExecutedTrade)
    (rest : TradeExecutor.TradeMap) (ps : List TradeExecutor.Position)
    (rs : List (Except String (List TradeExecutor.Position)))
    (hfind : ps.find? (fun p => p.instrument_token == cfg.instrumentToken) = none) :
    TradeExecutor.monitorActiveTrades cfg now ((tid, t) :: rest) (Except.ok ps :: rs) =
      ((TradeExecutor.monitorActiveTrades cfg now rest rs).1,
        { t with status := TradeExecutor.TradeStatus.CLOSED, closedAt := some now } ::
          (TradeExecutor.monitorActiveTrades cfg now rest rs).2) := by
  simp only [TradeExecutor.monitorActiveTrades, hfind]

/-- Monitor step when getPositions does report a position: the trade stays in
the map, flipped to FILLED when the position quantity is zero. -/
theorem monitor_cons_ok_some (cfg : TradeExecutor.Config) (now : ℕ)
    (tid : String) (t : TradeExecutor.ExecutedTrade)
    (rest : TradeExecutor.TradeMap) (ps : List TradeExecutor.Position)
    (rs : List (Except String (List TradeExecutor.Position)))
    (p : TradeExecutor.Position)
    (hfind : ps.find? (fun pp => pp.instrument_token == cfg.instrumentToken) = some p) :
    TradeExecutor.monitorActiveTrades cfg now ((tid, t) :: rest) (Except.ok ps :: rs) =
      ((tid, if p.quantity = 0
          then { t with status := TradeExecutor.TradeStatus.FILLED } else t) ::
          (TradeExecutor.monitorActiveTrades cfg now rest rs).1,
        (TradeExecutor.monitorActiveTrades cfg now rest rs).2) := by
  simp only [TradeExecutor.monitorActiveTrades, hfind]

/-- The monitor loop distributes over an append of the active map, given one
gateway response per trade in the first part. -/
theorem monitor_append (cfg : TradeExecutor.Config) (now : ℕ)
    (xs ys : TradeExecutor.TradeMap)
    (rs ss : List (Except String (List TradeExecutor.Position)))
    (h : rs.length = xs.length) :
    TradeExecutor.monitorActiveTrades cfg now (xs ++ ys) (rs ++ ss) =
      ((TradeExecutor.monitorActiveTrades cfg now xs rs).1 ++
          (TradeExecutor.monitorActiveTrades cfg now ys ss).1,
        (TradeExecutor.monitorActiveTrades cfg now xs rs).2 ++
          (TradeExecutor.monitorActiveTrades cfg now ys ss).2) := by
  induction xs generalizing rs with
  | nil =>
    cases rs with
    | nil => simp [monitor_nil]
    | cons r rs' => simp at h
  | cons x xs ih =>
    cases rs with
    | nil => simp at h
    | cons r rs' =>
      have h' : rs'.length = xs.length := by simpa using h
      obtain ⟨tid, t⟩ := x
      cases r with
      | error e =>
        rw [List.cons_append, List.cons_append,
          monitor_cons_error cfg now tid t (xs ++ ys) e (rs' ++ ss),
          monitor_cons_error cfg now tid t xs e rs', ih rs' h']
        simp
      | ok ps =>
        cases hfind : ps.find? (fun p => p.instrument_token == cfg.instrumentToken) with
        | none =>
          rw [List.cons_append, List.cons_append,
            monitor_cons_ok_none cfg now tid t (xs ++ ys) ps (rs' ++ ss) hfind,
            monitor_cons_ok_none cfg now tid t xs ps rs' hfind, ih rs' h']
          simp
        | some p =>
          rw [List.cons_append, List.cons_append,
            monitor_cons_ok_some cfg now tid t (xs ++ ys) ps (rs' ++ ss) p hfind,
            monitor_cons_ok_some cfg now tid t xs ps rs' p hfind, ih rs' h']
          simp

/-- C2 (amended): a trade created through executeTradeSignals starts with
status EXECUTED and with closedAt, exitPrice and pnl all unset; and when a
monitor() invocation finds that the gateway no longer reports a position for
an active trade, that trade — wherever it sits in the map — transitions to
CLOSED with closedAt set to the monitoring tick (its first and only setting,
since the trade leaves the active set), is removed from the map, and is
returned among the trades closed by that call. The record returned by the
monitor path keeps exitPrice and pnl untouched: unlike the manual close, the
monitor transition computes no pnl, so the claimed
`pnl = (exit − entry)·quantity` is never filled in. -/
theorem trade_lifecycle_transitions :
    (∀ cfg now (m : TradeExecutor.TradeMap) analysisResp orderResp t,
      (TradeExecutor.executeTradeSignals cfg now m analysisResp orderResp).2 =
        Except.ok (some t) →
      t.status = TradeExecutor.TradeStatus.EXECUTED ∧ t.closedAt = none ∧
        t.exitPrice = none ∧ t.pnl = none) ∧
    (∀ cfg now (pre post : TradeExecutor.TradeMap) tid t rpre rpost ps,
      rpre.length = pre.length →
      ps.find? (fun p => p.instrument_token == cfg.instrumentToken) = none →
      TradeExecutor.monitorActiveTrades cfg now (pre ++ (tid, t) :: post)
          (rpre ++ Except.ok ps :: rpost) =
        ((TradeExecutor.monitorActiveTrades cfg now pre rpre).1 ++
            (TradeExecutor.monitorActiveTrades cfg now post rpost).1,
          (TradeExecutor.monitorActiveTrades cfg now pre rpre).2 ++
            ({ t with status := TradeExecutor.TradeStatus.CLOSED, closedAt := some now } ::
              (TradeExecutor.monitorActiveTrades cfg now post rpost).2))) := by
  constructor
  · intro cfg now m analysisResp orderResp t h
    unfold TradeExecutor.executeTradeSignals at h
    split at h
    · simp at h
    · cases analysisResp with
      | error e => simp at h
      | ok sig =>
        simp only [Prod.snd] at h
        have h' : (match sig.signal with
            | none => ((m, Except.ok none) :
                TradeExecutor.TradeMap × Except String (Option TradeExecutor.ExecutedTrade))
            | some d =>
              if sig.confidence < cfg.minConfidence then (m, Except.ok none)
              else
                let r := TradeExecutor.executeTrade cfg now sig d orderResp m
                (r.1, r.2.map some)).2 = Except.ok (some t) := h
        clear h
        cases hsig : sig.signal with
        | none =>
          rw [hsig] at h'
          simp at h'
        | some d =>
          rw [hsig] at h'
          have h2 : (if sig.confidence < cfg.minConfidence
              then ((m, Except.ok none) :
                TradeExecutor.TradeMap × Except String (Option TradeExecutor.ExecutedTrade))
              else
                let r := TradeExecutor.executeTrade cfg now sig d orderResp m
                (r.1, r.2.map some)).2 = Except.ok (some t) := h'
          clear h'
          split at h2
          · exact Option.noConfusion (Except.ok.inj h2)
          · have h3 : (TradeExecutor.executeTrade cfg now sig d orderResp m).2.map some =
                Except.ok (some t) := h2
            clear h2
            cases orderResp with
            | error e =>
              exact Except.noConfusion
                (show (Except.error e : Except String (Option TradeExecutor.ExecutedTrade)) =
                  Except.ok (some t) from h3)
            | ok oid =>
              have h4 : Except.ok (some (TradeExecutor.recordedTrade cfg now sig d oid)) =
                  Except.ok (some t) := h3
              obtain rfl := (Option.some.inj (Except.ok.inj h4)).symm
              exact ⟨rfl, rfl, rfl, rfl⟩
  · intro cfg now pre post tid t rpre rpost ps hlen hfind
    rw [monitor_append cfg now pre ((tid, t) :: post) rpre (Except.ok ps :: rpost) hlen,
      monitor_cons_ok_none cfg now tid t post ps rpost hfind]

/-- Witness for C2: executing the concrete BUY signal at tick 0 on an empty
map yields the concrete trade record, whose status is EXECUTED with pnl,
exitPrice and closedAt unset; and monitoring the one-trade map at tick 7 with
an empty positions response closes that trade and empties the map. -/
theorem trade_lifecycle_transitions_witness :
    (TradeExecutor.executeTradeSignals TradeExecutor.cfgEx 0 []
        (Except.ok TradeExecutor.exSig) (Except.ok "O1")).2 =
      Except.ok (some TradeExecutor.exeProduced) ∧
    TradeExecutor.exeProduced.status = TradeExecutor.TradeStatus.EXECUTED ∧
    TradeExecutor.exeProduced.closedAt = none ∧
    TradeExecutor.exeProduced.pnl = none ∧
    TradeExecutor.monitorActiveTrades TradeExecutor.cfgEx 7 TradeExecutor.m1
        [Except.ok []] =
      ([], [{ TradeExecutor.exTrade with status := TradeExecutor.TradeStatus.CLOSED, closedAt := some 7 }]) := by
  have hres : (TradeExecutor.executeTradeSignals TradeExecutor.cfgEx 0 []
      (Except.ok TradeExecutor.exSig) (Except.ok "O1")).2 =
      Except.ok (some TradeExecutor.exeProduced) := by
    unfold TradeExecutor.executeTradeSignals
    rw [if_neg (by norm_num [TradeExecutor.cfgEx])]
    show (if TradeExecutor.exSig.confidence < TradeExecutor.cfgEx.minConfidence
        then ((([] : TradeExecutor.TradeMap), Except.ok none) :
          TradeExecutor.TradeMap × Except String (Option TradeExecutor.ExecutedTrade))
        else
          let r := TradeExecutor.executeTrade TradeExecutor.cfgEx 0
            TradeExecutor.exSig Side.BUY (Except.ok "O1") []
          (r.1, r.2.map some)).2 = _
    rw [if_neg (by norm_num [TradeExecutor.exSig, TradeExecutor.cfgEx])]
    rfl
  have hexec := trade_lifecycle_transitions.1 TradeExecutor.cfgEx 0 []
    (Except.ok TradeExecutor.exSig) (Except.ok "O1") TradeExecutor.exeProduced hres
  have hmon := trade_lifecycle_transitions.2 TradeExecutor.cfgEx 7 [] [] "T1"
    TradeExecutor.exTrade [] [] [] rfl rfl
  refine ⟨hres, hexec.1, hexec.2.1, hexec.2.2.2, ?_⟩
  simpa [TradeExecutor.m1] using hmon

/-- C2 counterexample: the monitor path closes the concrete executed trade
(entry 100, quantity 5) without computing any pnl — the returned closed trade
carries `pnl = none` and `exitPrice = none`, so the claimed
`pnl = (exitPrice − entryPrice)·quantity` is not established by monitor(). -/
theorem monitor_close_without_pnl_counterexample :
    (TradeExecutor.monitorActiveTrades TradeExecutor.cfgEx 7 TradeExecutor.m1
        [Except.ok []]).2 =
      [{ TradeExecutor.exTrade with status := TradeExecutor.TradeStatus.CLOSED, closedAt := some 7 }] ∧
    ({ TradeExecutor.exTrade with status := TradeExecutor.TradeStatus.CLOSED, closedAt := some 7 }).pnl =
      none ∧
    ({ TradeExecutor.exTrade with status := TradeExecutor.TradeStatus.CLOSED, closedAt := some 7 }).exitPrice =
      none ∧
    TradeExecutor.exTrade.entryPrice = 100 ∧
    TradeExecutor.exTrade.quantity = 5 :=
  ⟨rfl, rfl, rfl, rfl, rfl⟩

/-- The pnl accumulation in calculateTotalPnL equals the starting accumulator
plus the sum of the pnl values that are present and nonzero. -/
theorem calculateTotalPnL_go (m : TradeExecutor.TradeMap) (acc : ℚ) :
    m.foldl (fun acc e =>
      match e.2.pnl with
      | some p => if p = 0 then acc else acc + p
      | none => acc) acc =
      acc + (((m.map (fun e => e.2)).filterMap (fun t => t.pnl)).filter
        (fun p => !(p == 0))).sum := by
  induction m generalizing acc with
  | nil => simp
  | cons e rest ih =>
    rw [List.foldl_cons, List.map_cons, List.filterMap_cons]
    cases hp : e.2.pnl with
    | none => simpa [hp] using ih acc
    | some p =>
      by_cases h0 : p = 0
      · subst h0
        simpa [hp] using ih acc
      · simp only [hp, if_neg h0, ih (acc + p), List.filter_cons]
        rw [if_pos (by simpa using h0)]
        rw [List.sum_cons]
        ring

/-- Deleting a key from the trade map makes it unresolvable. -/
theorem mapGet_mapDelete (m : TradeExecutor.TradeMap) (k : String) :
    TradeExecutor.mapGet (TradeExecutor.mapDelete m k) k = none := by
  unfold TradeExecutor.mapGet TradeExecutor.mapDelete
  induction m with
  | nil => rfl
  | cons e rest ih =>
    rw [List.filter_cons]
    by_cases hk : e.1 == k
    · rw [if_neg (by simp [hk])]
      exact ih
    · rw [if_pos (by simp [hk])]
      rw [List.find?_cons_of_neg _ (by simp [hk])]
      exact ih

/-- C8 (amended): every aggregate of getStatistics ranges over the trades
currently in the active map only, not over all trades ever closed: totalPnL
sums the pnl values present and nonzero among map entries (the JS truthiness
test also drops a pnl of exactly 0); winRate is profitable/closed × 100 over
the closed trades still in the map (0 when there are none); avgConfidence
averages the confidences of the map entries; and a successful manual close
deletes its trade from the map, so trades closed that way are excluded from
every aggregate. -/
theorem statistics_over_tracked_map :
    (∀ m : TradeExecutor.TradeMap,
      (TradeExecutor.getStatistics m).totalPnL =
        (((m.map (fun e => e.2)).filterMap (fun t => t.pnl)).filter
          (fun p => !(p == 0))).sum) ∧
    (∀ m : TradeExecutor.TradeMap,
      (TradeExecutor.getStatistics m).winRate =
        (if 0 < (m.map (fun e => e.2)).countP
            (fun t => t.status == TradeExecutor.TradeStatus.CLOSED)
         then ((m.map (fun e => e.2)).countP (fun t =>
            (match t.pnl with
             | some p => !(p == 0) && decide (0 < p)
             | none => false) && (t.status == TradeExecutor.TradeStatus.CLOSED)) : ℚ) /
            ((m.map (fun e => e.2)).countP
              (fun t => t.status == TradeExecutor.TradeStatus.CLOSED)) * 100
         else 0)) ∧
    (∀ m : TradeExecutor.TradeMap,
      (TradeExecutor.getStatistics m).avgConfidence =
        (if 0 < m.length then (m.map (fun e => e.2.confidence)).sum / m.length else 0)) ∧
    (∀ cfg now (m : TradeExecutor.TradeMap) tradeId t q,
      TradeExecutor.mapGet m tradeId = some t →
      (TradeExecutor.closeTrade cfg now m tradeId (Except.ok q) (Except.ok ())).2 =
        Except.ok true ∧
      TradeExecutor.mapGet
        (TradeExecutor.closeTrade cfg now m tradeId (Except.ok q) (Except.ok ())).1
        tradeId = none) := by
  refine ⟨?_, ?_, ?_, ?_⟩
  · intro m
    show TradeExecutor.calculateTotalPnL m = _
    unfold TradeExecutor.calculateTotalPnL
    rw [calculateTotalPnL_go m 0, zero_add]
  · intro m
    show (if 0 < ((m.map (fun e => e.2)).filter
          (fun t => t.status == TradeExecutor.TradeStatus.CLOSED)).length
        then _ / _ * 100 else 0) = _
    simp only [List.countP_eq_length_filter, List.filter_filter]
  · intro m
    show (if 0 < (m.map (fun e => e.2)).length
        then ((m.map (fun e => e.2)).map (fun t => t.confidence)).sum /
          ((m.map (fun e => e.2)).length : ℚ) else 0) = _
    rw [List.length_map, List.map_map]
    rfl
  · intro cfg now m tradeId t q h
    unfold TradeExecutor.closeTrade
    rw [h]
    exact ⟨rfl, mapGet_mapDelete _ _⟩

/-- Witness for C8: on the one-trade map, the manual close of "T1" succeeds
and removes it, so the statistics of the resulting state no longer see it. -/
theorem statistics_over_tracked_map_witness :
    TradeExecutor.mapGet TradeExecutor.m1 "T1" = some TradeExecutor.exTrade ∧
    (TradeExecutor.closeTrade TradeExecutor.cfgEx 7 TradeExecutor.m1 "T1"
        (Except.ok (some 110)) (Except.ok ())).2 = Except.ok true ∧
    TradeExecutor.mapGet
      (TradeExecutor.closeTrade TradeExecutor.cfgEx 7 TradeExecutor.m1 "T1"
        (Except.ok (some 110)) (Except.ok ())).1 "T1" = none := by
  have h := statistics_over_tracked_map.2.2.2 TradeExecutor.cfgEx 7
    TradeExecutor.m1 "T1" TradeExecutor.exTrade (some 110) rfl
  exact ⟨rfl, h.1, h.2⟩

/-- C8 counterexample: the concrete BUY trade (entry 100, quantity 5) is
closed manually at exit 110 — a profitable close with pnl 50 — yet because the
close deletes the trade from the map, getStatistics afterwards reports zero
closed trades, winRate 0 (the claim's all-trades-ever-closed winRate would be
100) and totalPnL 0 (the claim's sum over trades that have a pnl would be 50). -/
theorem statistics_exclude_closed_counterexample :
    (TradeExecutor.closedUpdate TradeExecutor.exTrade (some 110) 7).pnl = some 50 ∧
    TradeExecutor.closeTrade TradeExecutor.cfgEx 7 TradeExecutor.m1 "T1"
        (Except.ok (some 110)) (Except.ok ()) = ([], Except.ok true) ∧
    TradeExecutor.getStatistics [] =
      { activeTradesCount := 0, closedTradesCount := 0, profitableTradesCount := 0,
        winRate := 0, totalPnL := 0, avgConfidence := 0 } ∧
    (TradeExecutor.getStatistics []).winRate ≠ 100 ∧
    (TradeExecutor.getStatistics []).totalPnL ≠ 50 := by
  refine ⟨?_, rfl, rfl, ?_, ?_⟩
  · norm_num [TradeExecutor.closedUpdate, TradeExecutor.exTrade]
  · show (0 : ℚ) ≠ 100
    norm_num
  · show (0 : ℚ) ≠ 50
    norm_num

/-- The quartic factor of the CDF approximation is nonnegative. -/
theorem polyP_nonneg (t : ℝ) :
    0 ≤ 0.319381530 +
      t * (-0.356563782 + t * (1.781477937 + t * (-1.821255978 + t * 1.330274429))) := by
  nlinarith [sq_nonneg (t - 9/5), sq_nonneg (t * (t - 7/10)), sq_nonneg t,
    sq_nonneg (t - 1), sq_nonneg (t * t - t)]

/-- On [0, 1] the quintic `t · P(t)` of the CDF approximation stays below
2.101. -/
theorem t_polyP_le (t : ℝ) (h0 : 0 ≤ t) (h1 : t ≤ 1) :
    t * (0.319381530 +
      t * (-0.356563782 + t * (1.781477937 + t * (-1.821255978 + t * 1.330274429)))) ≤
      2101 / 1000 := by
  have h2 : 0 ≤ t * t := mul_nonneg h0 h0
  have h3 : 0 ≤ t * t * t := mul_nonneg h2 h0
  have h4 : 0 ≤ t * t * t * t := mul_nonneg h3 h0
  have h1' : 0 ≤ 1 - t := by linarith
  nlinarith [mul_nonneg h1' h0, mul_nonneg (mul_nonneg h1' h0) h0,
    mul_nonneg h1' h2, mul_nonneg h1' h3, mul_nonneg h1' h4,
    mul_nonneg (mul_nonneg h1' h1') h4]

/-- The tail-probability term of the CDF approximation lies in [0, 21/25]. -/
theorem prob_bounds (t d : ℝ) (ht0 : 0 < t) (ht1 : t ≤ 1) (hd0 : 0 < d)
    (hd1 : d ≤ 0.3989423) :
    0 ≤ d * t * (0.319381530 +
      t * (-0.356563782 + t * (1.781477937 + t * (-1.821255978 + t * 1.330274429)))) ∧
    d * t * (0.319381530 +
      t * (-0.356563782 + t * (1.781477937 + t * (-1.821255978 + t * 1.330274429)))) ≤
      21 / 25 := by
  have hP0 := polyP_nonneg t
  have hPt := t_polyP_le t ht0.le ht1
  constructor
  · exact mul_nonneg (mul_nonneg hd0.le ht0.le) hP0
  · calc d * t * (0.319381530 +
        t * (-0.356563782 + t * (1.781477937 + t * (-1.821255978 + t * 1.330274429))))
        = d * (t * (0.319381530 +
          t * (-0.356563782 + t * (1.781477937 + t * (-1.821255978 + t * 1.330274429))))) := by
          ring
      _ ≤ 0.3989423 * (2101 / 1000) :=
          mul_le_mul hd1 hPt (mul_nonneg ht0.le hP0) (by norm_num)
      _ ≤ 21 / 25 := by norm_num

/-- The source's polynomial CDF approximation always lands in [0, 1]. -/
theorem normalDistribution_mem (x : ℝ) :
    0 ≤ OptionsTrade.normalDistribution x ∧ OptionsTrade.normalDistribution x ≤ 1 := by
  have habs : (0:ℝ) ≤ |x| := abs_nonneg x
  have hden : (1:ℝ) ≤ 1 + 0.2316419 * |x| := by nlinarith
  have hden0 : (0:ℝ) < 1 + 0.2316419 * |x| := by linarith
  have ht0 : 0 < 1 / (1 + 0.2316419 * |x|) := by positivity
  have ht1 : 1 / (1 + 0.2316419 * |x|) ≤ 1 := by
    rw [div_le_one hden0]
    exact hden
  have hd0 : 0 < 0.3989423 * Real.exp (-x * x / 2) := by positivity
  have hexp1 : Real.exp (-x * x / 2) ≤ 1 :=
    Real.exp_le_one_iff.mpr (by nlinarith [sq_nonneg x])
  have hd1 : 0.3989423 * Real.exp (-x * x / 2) ≤ 0.3989423 := by
    nlinarith [Real.exp_pos (-x * x / 2)]
  have hb := prob_bounds (1 / (1 + 0.2316419 * |x|))
    (0.3989423 * Real.exp (-x * x / 2)) ht0 ht1 hd0 hd1
  unfold OptionsTrade.normalDistribution
  split
  · constructor <;> [linarith [hb.2]; linarith [hb.1]]
  · constructor <;> [linarith [hb.1]; linarith [hb.2]]

/-- JS `Math.round` to two decimals keeps a [0, 1] value in [0, 1], keeps its
shift by −1 in [−1, 0], and rounding commutes with the integer shift so the
two rounded values differ by exactly 1. -/
theorem jsRound_deltas (N : ℝ) (h0 : 0 ≤ N) (h1 : N ≤ 1) :
    0 ≤ OptionsTrade.jsRound (N * 100) / 100 ∧
    OptionsTrade.jsRound (N * 100) / 100 ≤ 1 ∧
    -1 ≤ OptionsTrade.jsRound ((N - 1) * 100) / 100 ∧
    OptionsTrade.jsRound ((N - 1) * 100) / 100 ≤ 0 ∧
    OptionsTrade.jsRound (N * 100) / 100 -
      OptionsTrade.jsRound ((N - 1) * 100) / 100 = 1 := by
  have hfl0 : (0:ℤ) ≤ ⌊N * 100 + 1/2⌋ := Int.le_floor.mpr (by push_cast; nlinarith)
  have hfl1 : ⌊N * 100 + 1/2⌋ ≤ 100 := Int.floor_le_iff.mpr (by push_cast; nlinarith)
  have hfl0' : (0:ℝ) ≤ ((⌊N * 100 + 1/2⌋ : ℤ) : ℝ) := by exact_mod_cast hfl0
  have hfl1' : ((⌊N * 100 + 1/2⌋ : ℤ) : ℝ) ≤ 100 := by exact_mod_cast hfl1
  have hshift : OptionsTrade.jsRound ((N - 1) * 100) =
      OptionsTrade.jsRound (N * 100) - 100 := by
    unfold OptionsTrade.jsRound
    rw [show (N - 1) * 100 + 1/2 = (N * 100 + 1/2) - ((100:ℤ):ℝ) by push_cast; ring]
    rw [Int.floor_sub_int]
    push_cast
    ring
  have hr : OptionsTrade.jsRound (N * 100) = ((⌊N * 100 + 1/2⌋ : ℤ) : ℝ) := rfl
  refine ⟨?_, ?_, ?_, ?_, ?_⟩
  · rw [hr]
    positivity
  · rw [hr, div_le_one (by norm_num : (0:ℝ) < 100)]
    exact hfl1'
  · rw [hshift, hr, le_div_iff₀ (by norm_num : (0:ℝ) < 100)]
    linarith
  · rw [hshift, hr, div_nonpos_iff]
    right
    constructor <;> linarith
  · rw [hshift]
    ring

/-- C9: for all pricing inputs, the computed (rounded) call delta lies in
[0, 1], the computed put delta lies in [−1, 0], and the two differ by exactly
1 — in particular within the claimed 1e-6 tolerance. The put delta is
`N(d1) − 1` computed from the same `d1`, and half-up rounding commutes with
the shift by 1, so the identity is exact. -/
theorem greeks_delta_bounds_and_parity (spot strike days vol rate : ℝ) :
    0 ≤ (OptionsTrade.calculateGreeks spot strike days vol rate
      OptionsTrade.OptionType.CE).delta ∧
    (OptionsTrade.calculateGreeks spot strike days vol rate
      OptionsTrade.OptionType.CE).delta ≤ 1 ∧
    -1 ≤ (OptionsTrade.calculateGreeks spot strike days vol rate
      OptionsTrade.OptionType.PE).delta ∧
    (OptionsTrade.calculateGreeks spot strike days vol rate
      OptionsTrade.OptionType.PE).delta ≤ 0 ∧
    (OptionsTrade.calculateGreeks spot strike days vol rate
        OptionsTrade.OptionType.CE).delta -
      (OptionsTrade.calculateGreeks spot strike days vol rate
        OptionsTrade.OptionType.PE).delta = 1 ∧
    |(OptionsTrade.calculateGreeks spot strike days vol rate
        OptionsTrade.OptionType.CE).delta -
      (OptionsTrade.calculateGreeks spot strike days vol rate
        OptionsTrade.OptionType.PE).delta - 1| < 1 / 1000000 := by
  have hN := normalDistribution_mem
    ((Real.log (spot / strike) + (rate + vol / 100 * (vol / 100) / 2) * (days / 365)) /
      (vol / 100 * Real.sqrt (days / 365)))
  have hd := jsRound_deltas _ hN.1 hN.2
  have hCE : (OptionsTrade.calculateGreeks spot strike days vol rate
      OptionsTrade.OptionType.CE).delta =
      OptionsTrade.jsRound (OptionsTrade.normalDistribution
        ((Real.log (spot / strike) + (rate + vol / 100 * (vol / 100) / 2) * (days / 365)) /
          (vol / 100 * Real.sqrt (days / 365))) * 100) / 100 := rfl
  have hPE : (OptionsTrade.calculateGreeks spot strike days vol rate
      OptionsTrade.OptionType.PE).delta =
      OptionsTrade.jsRound ((OptionsTrade.normalDistribution
        ((Real.log (spot / strike) + (rate + vol / 100 * (vol / 100) / 2) * (days / 365)) /
          (vol / 100 * Real.sqrt (days / 365))) - 1) * 100) / 100 := rfl
  rw [hCE, hPE]
  refine ⟨hd.1, hd.2.1, hd.2.2.1, hd.2.2.2.1, hd.2.2.2.2, ?_⟩
  rw [hd.2.2.2.2]
  norm_num
